import Mathlib

/-!
# Payment relay (`src/index.js`): shallow embedding and verified properties

The Express handlers of `src/index.js` are embedded as pure functions.  A
handler receives the process configuration, the outside world (a function
from an outbound `fetch` call to its outcome) and the parsed request body,
and returns the HTTP response it writes together with the list of outbound
calls it performed, in order.

Values are the JavaScript values that `JSON.parse` and the body parsers
produce.  The handlers never compute with a number: they only test it with
`!` and render it in a string, so a number is represented by these two
observations (`JSNum`).  Strings are sequences of Unicode scalar values.
-/

set_option autoImplicit false

namespace PaymentBackend

/-! ## JavaScript values -/

/-- A JavaScript number, given by the two observations the handlers make of
it: whether it is zero (`0` or `-0`; `NaN` does not occur in a parsed body),
which is what `ToBoolean` tests, and its rendering by `Number::toString`
(`100` for 100, `100.5` for 100.5, `1e+21` for 10^21, `0` for `-0`), which is
what `ToString` returns. -/
structure JSNum where
  isZero : Bool
  text : String

/-- A JavaScript value as it occurs in a parsed request or response body. -/
inductive JSVal where
  | undefined
  | null
  | bool (b : Bool)
  | num (x : JSNum)
  | str (s : String)
  | arr (items : List JSVal)
  | obj (fields : List (String × JSVal))

/-- The own enumerable properties of a plain object, in enumeration order. -/
abbrev Obj := List (String × JSVal)

namespace JSVal

/-- The abstract operation `ToBoolean`: `!v` is `!(truthy v)`. -/
def truthy : JSVal → Bool
  | undefined => false
  | null => false
  | bool b => b
  | num x => !x.isZero
  | str s => s != ""
  | arr _ => true
  | obj _ => true

/-- The operator `a || b`. -/
def or (a b : JSVal) : JSVal :=
  if a.truthy then a else b

/-- The comparison `v === 'literal'` against a string literal. -/
def strictEqStr : JSVal → String → Bool
  | str s, t => s == t
  | _, _ => false

end JSVal

/-- Whether the object has an own property named `k`. -/
def Obj.has : Obj → String → Bool
  | [], _ => false
  | (k', _) :: rest, k => if k' = k then true else Obj.has rest k

/-- Reading the property `k` of a plain object, as in `const { k } = o` or `o.k`:
`undefined` when the object has no such property.  (The names read by the
handlers are not names of `Object.prototype`.) -/
def Obj.get : Obj → String → JSVal
  | [], _ => JSVal.undefined
  | (k', v) :: rest, k => if k' = k then v else Obj.get rest k

/-- Defining the property `k` in an object literal under construction: an
existing property keeps its place and takes the new value, a new property is
appended. -/
def Obj.set : Obj → String → JSVal → Obj
  | [], k, v => [(k, v)]
  | (k', v') :: rest, k, v => if k' = k then (k', v) :: rest else (k', v') :: Obj.set rest k v

namespace JSVal

/-- The member access `v.k` for `k` one of `status`, `message`: `none` stands
for the `TypeError` thrown when `v` is `null` or `undefined`; primitives and
arrays have no such property. -/
def getProp? : JSVal → String → Option JSVal
  | undefined, _ => none
  | null, _ => none
  | obj fields, k => some (Obj.get fields k)
  | _, _ => some undefined

/-- The optional chaining `v?.k`. -/
def optProp : JSVal → String → JSVal
  | undefined, _ => undefined
  | null, _ => undefined
  | obj fields, k => Obj.get fields k
  | _, _ => undefined

mutual
/-- The abstract operation `ToString`, used by template literals and by
`URLSearchParams`; `none` stands for the `TypeError` thrown for an object
that cannot be converted to a primitive (a parsed object whose own property
`toString` shadows the inherited method). -/
def toStr : JSVal → Option String
  | undefined => some "undefined"
  | null => some "null"
  | bool true => some "true"
  | bool false => some "false"
  | num x => some x.text
  | str s => some s
  | arr items => joinItems items
  | obj fields => if Obj.has fields "toString" then none else some "[object Object]"
termination_by structural v => v
/-- The method `Array.prototype.join` with the separator `,`. -/
def joinItems : List JSVal → Option String
  | [] => some ""
  | x :: rest =>
    let head : Option String :=
      match x with
      | undefined => some ""
      | null => some ""
      | _ => toStr x
    match rest with
    | [] => head
    | _ :: _ =>
      match head, joinItems rest with
      | some h, some t => some (h ++ "," ++ t)
      | _, _ => none
termination_by structural l => l
end

end JSVal

open JSVal

/-! ## Configuration, outbound calls, responses -/

/-- The environment variables read by the program. -/
structure Config where
  SSLCOMMERZ_STORE_ID : Option String
  SSLCOMMERZ_STORE_PASSWORD : Option String
  NODE_ENV : Option String
  FRONTEND_URL : Option String

/-- The value of `process.env.NAME`. -/
def envVal : Option String → JSVal
  | none => JSVal.undefined
  | some s => JSVal.str s

/-- The interpolation of `process.env.NAME` in a template literal. -/
def envStr : Option String → String
  | none => "undefined"
  | some s => s

/-- The configuration object `sslcommerz` (lines 10-14); a credential is
`none` when its environment variable is not set (the value `undefined`). -/
structure Sslcommerz where
  store_id : Option String
  store_passwd : Option String
  is_live : Bool

/-- The configuration object built at start-up from the environment. -/
def sslcommerz (cfg : Config) : Sslcommerz :=
  { store_id := cfg.SSLCOMMERZ_STORE_ID
    store_passwd := cfg.SSLCOMMERZ_STORE_PASSWORD
    is_live := (envVal cfg.NODE_ENV).strictEqStr "production" }

/-- An outbound `fetch` call: method, URL and, for a form post, the
name/value pairs of the `URLSearchParams` body. -/
structure FetchCall where
  method : String
  url : String
  form : List (String × String)

/-- What an outbound call yields: `fetch` rejects, `response.json()` rejects,
or the body parses to a value.  The strings are the `message` of the error. -/
inductive FetchOutcome where
  | rejected (message : String)
  | unparseable (message : String)
  | parsed (data : JSVal)

/-- The processor and the network, as seen by the handlers. -/
abbrev World := FetchCall → FetchOutcome

/-- The response a handler writes: `res.status(code).json(body)` (`res.json`
alone answers 200) or `res.redirect(location)`, where `location` is the string
handed to `res.redirect`. -/
inductive Response where
  | json (code : Nat) (body : JSVal)
  | redirect (location : String)

/-- The status code of a response (`res.redirect` answers 302). -/
def Response.code : Response → Nat
  | Response.json c _ => c
  | Response.redirect _ => 302

/-- Whether the response is a redirect. -/
def Response.isRedirect : Response → Bool
  | Response.json _ _ => false
  | Response.redirect _ => true

/-- What running a handler produces: the response and the outbound calls made. -/
structure Outcome where
  response : Response
  calls : List FetchCall

/-! ## Payment initiation (lines 21-81) -/

/-- The ten fields `validatePaymentRequest` reads from the body. -/
def requiredFields : List String :=
  ["total_amount", "currency", "tran_id", "success_url", "fail_url", "cancel_url",
   "cus_name", "cus_email", "cus_phone", "cus_add1"]

/-- The function `validatePaymentRequest` (lines 22-30), on `req.body`. -/
def validatePaymentRequest (body : Obj) : Bool :=
  let total_amount := body.get "total_amount"
  let currency := body.get "currency"
  let tran_id := body.get "tran_id"
  let success_url := body.get "success_url"
  let fail_url := body.get "fail_url"
  let cancel_url := body.get "cancel_url"
  let cus_name := body.get "cus_name"
  let cus_email := body.get "cus_email"
  let cus_phone := body.get "cus_phone"
  let cus_add1 := body.get "cus_add1"
  if !total_amount.truthy || !currency.truthy || !tran_id.truthy || !success_url.truthy
      || !fail_url.truthy || !cancel_url.truthy
      || !cus_name.truthy || !cus_email.truthy || !cus_phone.truthy || !cus_add1.truthy then
    false
  else
    true

/-- The endpoint `sslczURL` (lines 39-41). -/
def sslczURL (cfg : Config) : String :=
  if (sslcommerz cfg).is_live then "https://securepay.sslcommerz.com/gwprocess/v4/api.php"
  else "https://sandbox.sslcommerz.com/gwprocess/v4/api.php"

/-- The object `paymentData` (lines 44-51): the spread of `req.body` followed
by the five properties of the literal. -/
def paymentData (cfg : Config) (body : Obj) : Obj :=
  ((((body.set "store_id" (envVal (sslcommerz cfg).store_id)).set
    "store_passwd" (envVal (sslcommerz cfg).store_passwd)).set
    "shipping_method" (JSVal.str "NO")).set
    "multi_card_name" (JSVal.str "internetbank")).set
    "version" (JSVal.str "4.00")

/-- The name/value pairs of `new URLSearchParams(record)`: every property
value is converted with `ToString`; `none` when a conversion throws. -/
def formPairs : Obj → Option (List (String × String))
  | [] => some []
  | (k, v) :: rest =>
    match v.toStr, formPairs rest with
    | some s, some ps => some ((k, s) :: ps)
    | _, _ => none

/-- The body written by the `catch` block of the initiation handler (lines 75-79). -/
def initiateErrorBody (message : String) : JSVal :=
  JSVal.obj [("status", JSVal.str "FAILED"), ("message", JSVal.str "Internal server error"),
    ("error", JSVal.str message)]

/-- The message of the `TypeError` raised by a failed `ToString`. -/
def toPrimitiveError : String := "Cannot convert object to primitive value"

/-- The handler of `POST /api/initiate-payment` (lines 33-81). -/
def initiatePayment (cfg : Config) (world : World) (body : Obj) : Outcome :=
  if !validatePaymentRequest body then
    ⟨Response.json 400 (JSVal.obj [("status", JSVal.str "FAILED"),
      ("message", JSVal.str "Missing required fields")]), []⟩
  else
    match formPairs (paymentData cfg body) with
    | none => ⟨Response.json 500 (initiateErrorBody toPrimitiveError), []⟩
    | some form =>
      let call : FetchCall := ⟨"POST", sslczURL cfg, form⟩
      match world call with
      | FetchOutcome.rejected message => ⟨Response.json 500 (initiateErrorBody message), [call]⟩
      | FetchOutcome.unparseable message => ⟨Response.json 500 (initiateErrorBody message), [call]⟩
      | FetchOutcome.parsed data =>
        if (data.optProp "status").strictEqStr "SUCCESS" then
          ⟨Response.json 200 data, [call]⟩
        else
          ⟨Response.json 400 (JSVal.obj [("status", JSVal.str "FAILED"),
            ("message", (data.optProp "message").or (JSVal.str "Payment initialization failed")),
            ("data", data)]), [call]⟩

/-- The method `URLSearchParams.prototype.get`: the first value stored under
the name. -/
def formGet : List (String × String) → String → Option String
  | [], _ => none
  | (k', s) :: rest, k => if k' = k then some s else formGet rest k

/-- The five properties the literal `paymentData` defines after the spread. -/
def overriddenKeys : List String :=
  ["store_id", "store_passwd", "shipping_method", "multi_card_name", "version"]

/-! ## Validation of a callback against the processor (lines 83-113, 139-166) -/

/-- The endpoint `validationURL` (lines 89-91 and 145-147). -/
def validationURL (cfg : Config) : String :=
  if (sslcommerz cfg).is_live then
    "https://securepay.sslcommerz.com/validator/api/validationserverAPI.php"
  else "https://sandbox.sslcommerz.com/validator/api/validationserverAPI.php"

/-- The validation query issued for a `val_id` already converted to a string
(lines 93 and 149). -/
def validationCall (cfg : Config) (val_id : String) : FetchCall :=
  ⟨"GET", validationURL cfg ++ "?val_id=" ++ val_id ++ "&store_id="
    ++ envStr (sslcommerz cfg).store_id ++ "&store_passwd="
    ++ envStr (sslcommerz cfg).store_passwd, []⟩

/-- The test `status === 'VALID' || status === 'VALIDATED'` (lines 96 and 152). -/
def isConfirmed (status : JSVal) : Bool :=
  status.strictEqStr "VALID" || status.strictEqStr "VALIDATED"

/-- The redirect of the `catch` block of the success handler (line 111). -/
def successCatch (cfg : Config) : Response :=
  Response.redirect (envStr cfg.FRONTEND_URL ++ "/payment-failed?error_message=Internal server error")

/-- The handler of `POST /payment-success` (lines 84-113). -/
def paymentSuccess (cfg : Config) (world : World) (body : Obj) : Outcome :=
  let tran_id := body.get "tran_id"
  let val_id := body.get "val_id"
  match val_id.toStr with
  | none => ⟨successCatch cfg, []⟩
  | some v =>
    let call := validationCall cfg v
    match world call with
    | FetchOutcome.rejected _ => ⟨successCatch cfg, [call]⟩
    | FetchOutcome.unparseable _ => ⟨successCatch cfg, [call]⟩
    | FetchOutcome.parsed validationData =>
      match validationData.getProp? "status" with
      | none => ⟨successCatch cfg, [call]⟩
      | some status =>
        if isConfirmed status then
          match tran_id.toStr with
          | none => ⟨successCatch cfg, [call]⟩
          | some t =>
            ⟨Response.redirect (envStr cfg.FRONTEND_URL ++ "/payment-success?tran_id=" ++ t), [call]⟩
        else
          match tran_id.toStr with
          | none => ⟨successCatch cfg, [call]⟩
          | some t =>
            ⟨Response.redirect (envStr cfg.FRONTEND_URL
              ++ "/payment-failed?error_message=Payment validation failed&tran_id=" ++ t), [call]⟩

/-- The response of the `catch` block of the notification handler (line 164). -/
def notificationCatch : Response :=
  Response.json 500 (JSVal.obj [("status", JSVal.str "FAILED"),
    ("message", JSVal.str "Internal server error")])

/-- The handler of `POST /api/payment-notification` (lines 140-166). -/
def paymentNotification (cfg : Config) (world : World) (body : Obj) : Outcome :=
  let val_id := body.get "val_id"
  match val_id.toStr with
  | none => ⟨notificationCatch, []⟩
  | some v =>
    let call := validationCall cfg v
    match world call with
    | FetchOutcome.rejected _ => ⟨notificationCatch, [call]⟩
    | FetchOutcome.unparseable _ => ⟨notificationCatch, [call]⟩
    | FetchOutcome.parsed validationData =>
      match validationData.getProp? "status" with
      | none => ⟨notificationCatch, [call]⟩
      | some status =>
        if isConfirmed status then
          ⟨Response.json 200 (JSVal.obj [("status", JSVal.str "SUCCESS")]), [call]⟩
        else
          ⟨Response.json 400 (JSVal.obj [("status", JSVal.str "FAILED"),
            ("message", JSVal.str "Payment validation failed")]), [call]⟩

/-! ## Reference notion taken from the specification -/

/-- Following the spec's words ("missing or empty"): the field is absent from
the body, is `null`, or is the empty string. -/
def specMissingOrEmpty : JSVal → Bool
  | JSVal.undefined => true
  | JSVal.null => true
  | JSVal.str s => s == ""
  | _ => false

/-! ## Sample inputs -/

/-- A complete initiation body (the spec's scenario for `T1`). -/
def sampleBody : Obj :=
  [("total_amount", JSVal.num ⟨false, "100"⟩), ("currency", JSVal.str "BDT"), ("tran_id", JSVal.str "T1"),
   ("success_url", JSVal.str "https://shop.example/ok"),
   ("fail_url", JSVal.str "https://shop.example/fail"),
   ("cancel_url", JSVal.str "https://shop.example/cancel"),
   ("cus_name", JSVal.str "A"), ("cus_email", JSVal.str "a@b.com"),
   ("cus_phone", JSVal.str "123"), ("cus_add1", JSVal.str "X")]

/-- The same body with a total amount of zero (the number `0`). -/
def zeroAmountBody : Obj :=
  Obj.set sampleBody "total_amount" (JSVal.num ⟨true, "0"⟩)

/-- A sandbox configuration. -/
def sampleConfig : Config :=
  { SSLCOMMERZ_STORE_ID := some "store1"
    SSLCOMMERZ_STORE_PASSWORD := some "secret"
    NODE_ENV := none
    FRONTEND_URL := some "https://shop.example" }

/-- A world in which the processor answers every call with the given value. -/
def answering (data : JSVal) : World :=
  fun _ => FetchOutcome.parsed data

/-- The processor's acceptance in the spec's scenario. -/
def acceptance : JSVal :=
  JSVal.obj [("status", JSVal.str "SUCCESS"), ("GatewayPageURL", JSVal.str "https://pay/x")]

/-- A rejection by the processor, with a reason. -/
def rejection : JSVal :=
  JSVal.obj [("status", JSVal.str "FAILED"), ("message", JSVal.str "Store credential error")]

/-- The form sent for `sampleBody` under `sampleConfig`. -/
def sampleForm : List (String × String) :=
  [("total_amount", "100"), ("currency", "BDT"), ("tran_id", "T1"),
   ("success_url", "https://shop.example/ok"), ("fail_url", "https://shop.example/fail"),
   ("cancel_url", "https://shop.example/cancel"), ("cus_name", "A"), ("cus_email", "a@b.com"),
   ("cus_phone", "123"), ("cus_add1", "X"), ("store_id", "store1"), ("store_passwd", "secret"),
   ("shipping_method", "NO"), ("multi_card_name", "internetbank"), ("version", "4.00")]

/-- A success-channel callback for `T1` with validation id `V1`. -/
def callbackT1 : Obj :=
  [("tran_id", JSVal.str "T1"), ("val_id", JSVal.str "V1"), ("status", JSVal.str "VALID"),
   ("amount", JSVal.str "100.00"), ("card_type", JSVal.str "VISA"),
   ("bank_tran_id", JSVal.str "B1"), ("store_amount", JSVal.str "97.50")]

/-- A callback for the same `tran_id` and `val_id` whose other fields differ. -/
def callbackT1Forged : Obj :=
  [("status", JSVal.str "FAILED"), ("tran_id", JSVal.str "T1"), ("val_id", JSVal.str "V1"),
   ("amount", JSVal.str "1.00"), ("card_type", JSVal.str "AMEX"),
   ("bank_tran_id", JSVal.str "B2"), ("store_amount", JSVal.str "0.10")]

/-- A callback for another transaction with the same validation id. -/
def callbackT2 : Obj :=
  [("tran_id", JSVal.str "T2"), ("val_id", JSVal.str "V1")]

/-- A callback whose `tran_id` is a parsed object with an own property
`toString` (the JSON body `{"tran_id": {"toString": 1}, "val_id": "V1"}`),
which a template literal cannot convert to a string. -/
def callbackOpaque : Obj :=
  [("tran_id", JSVal.obj [("toString", JSVal.num ⟨false, "1"⟩)]), ("val_id", JSVal.str "V1")]

/-- A world in which every outbound call fails in transport. -/
def unreachable : World :=
  fun _ => FetchOutcome.rejected "fetch failed"

/-! ## Lemmas on objects -/

theorem Obj.get_set_same (o : Obj) (k : String) (v : JSVal) : (o.set k v).get k = v := by
  induction o with
  | nil => simp [Obj.set, Obj.get]
  | cons p rest ih =>
    obtain ⟨k', v'⟩ := p
    by_cases h : k' = k
    · simp [Obj.set, Obj.get, h]
    · simp [Obj.set, Obj.get, h, ih]

theorem Obj.get_set_other (o : Obj) (k k' : String) (v : JSVal) (h : k ≠ k') :
    (o.set k v).get k' = o.get k' := by
  induction o with
  | nil => simp [Obj.set, Obj.get, h]
  | cons p rest ih =>
    obtain ⟨k₀, v₀⟩ := p
    by_cases h₀ : k₀ = k
    · subst h₀
      simp [Obj.set, Obj.get, h]
    · by_cases h₁ : k₀ = k'
      · subst h₁
        simp [Obj.set, Obj.get, h₀]
      · simp [Obj.set, Obj.get, h₀, h₁, ih]

theorem truthy_of_not_missingOrEmpty_str (s : String) (h : s ≠ "") :
    (JSVal.str s).truthy = true := by
  simp [JSVal.truthy, h]

theorem not_truthy_of_specMissingOrEmpty (v : JSVal) (h : specMissingOrEmpty v = true) :
    v.truthy = false := by
  cases v <;> simp_all [specMissingOrEmpty, JSVal.truthy]

theorem validatePaymentRequest_eq_true_iff (body : Obj) :
    validatePaymentRequest body = true ↔ ∀ f ∈ requiredFields, (body.get f).truthy = true := by
  simp only [validatePaymentRequest, requiredFields, List.forall_mem_cons]
  simp only [List.not_mem_nil, false_imp_iff, implies_true, and_true]
  constructor
  · intro h
    split at h
    · exact absurd h (by simp)
    · rename_i hc
      simp only [Bool.or_eq_true, Bool.not_eq_true', not_or, Bool.not_eq_false] at hc
      tauto
  · intro h
    obtain ⟨h1, h2, h3, h4, h5, h6, h7, h8, h9, h10⟩ := h
    simp [h1, h2, h3, h4, h5, h6, h7, h8, h9, h10]

theorem Obj.has_set_same (o : Obj) (k : String) (v : JSVal) : (o.set k v).has k = true := by
  induction o with
  | nil => simp [Obj.set, Obj.has]
  | cons p rest ih =>
    obtain ⟨k', v'⟩ := p
    by_cases h : k' = k
    · simp [Obj.set, Obj.has, h]
    · simp [Obj.set, Obj.has, h, ih]

theorem Obj.has_set_of_has (o : Obj) (k k' : String) (v : JSVal) (h : o.has k' = true) :
    (o.set k v).has k' = true := by
  induction o with
  | nil => simp [Obj.has] at h
  | cons p rest ih =>
    obtain ⟨k₀, v₀⟩ := p
    by_cases h₀ : k₀ = k
    · subst h₀
      by_cases h₁ : k₀ = k'
      · simp [Obj.set, Obj.has, h₁]
      · simp only [Obj.has, h₁, if_false] at h
        simp [Obj.set, Obj.has, h₁, h]
    · by_cases h₁ : k₀ = k'
      · subst h₁
        simp [Obj.set, Obj.has, h₀]
      · simp only [Obj.has, h₁, if_false] at h
        simp [Obj.set, Obj.has, h₀, h₁, ih h]

theorem formGet_formPairs (o : Obj) (form : List (String × String))
    (h : formPairs o = some form) (k : String) :
    formGet form k = if o.has k = true then (o.get k).toStr else none := by
  induction o generalizing form with
  | nil =>
    simp only [formPairs, Option.some.injEq] at h
    subst h
    simp [formGet, Obj.has]
  | cons p rest ih =>
    obtain ⟨k₀, v₀⟩ := p
    simp only [formPairs] at h
    split at h
    · rename_i s ps hs hps
      simp only [Option.some.injEq] at h
      subst h
      by_cases h₀ : k₀ = k
      · simp [formGet, Obj.has, Obj.get, h₀, hs]
      · simp [formGet, Obj.has, Obj.get, h₀, ih ps hps]
    · exact absurd h (by simp)

theorem strictEqStr_eq_true_iff (v : JSVal) (t : String) :
    v.strictEqStr t = true ↔ v = JSVal.str t := by
  cases v <;> simp [JSVal.strictEqStr]

theorem strictEqStr_eq_false_of_ne (v : JSVal) (t : String) (h : v ≠ JSVal.str t) :
    v.strictEqStr t = false := by
  cases hb : v.strictEqStr t
  · rfl
  · exact absurd ((strictEqStr_eq_true_iff v t).mp hb) h

/-! ## C1: request validation -/

/-- C1 (as stated, refuted): the body `zeroAmountBody` has all ten required
fields present and none of them empty, yet `validatePaymentRequest` returns
false and the handler answers 400 `Missing required fields`. -/
theorem validatePaymentRequest_rejects_zero_amount :
    (∀ f ∈ requiredFields, Obj.has zeroAmountBody f = true
        ∧ specMissingOrEmpty (zeroAmountBody.get f) = false)
      ∧ validatePaymentRequest zeroAmountBody = false
      ∧ ((initiatePayment sampleConfig (answering acceptance) zeroAmountBody).response).code
          = 400 := by
  decide

/-- C1 (amended): `validatePaymentRequest` returns true exactly when each of the
ten required fields has a truthy value; a required field that is missing,
`null` or the empty string (or `false` or `0`) makes it return false; and
whenever it returns false the handler answers 400 with
`{status:'FAILED', message:'Missing required fields'}` and performs no
outbound call. -/
theorem initiatePayment_validation (cfg : Config) (world : World) (body : Obj) :
    (validatePaymentRequest body = true ↔ ∀ f ∈ requiredFields, (body.get f).truthy = true)
      ∧ ((∃ f ∈ requiredFields, specMissingOrEmpty (body.get f) = true) →
          validatePaymentRequest body = false)
      ∧ (validatePaymentRequest body = false →
          (initiatePayment cfg world body).response
              = Response.json 400 (JSVal.obj [("status", JSVal.str "FAILED"),
                  ("message", JSVal.str "Missing required fields")])
            ∧ (initiatePayment cfg world body).calls = []) := by
  refine ⟨validatePaymentRequest_eq_true_iff body, ?_, ?_⟩
  · rintro ⟨f, hf, hm⟩
    by_contra hne
    have hv : validatePaymentRequest body = true := by simpa using hne
    have ht := (validatePaymentRequest_eq_true_iff body).mp hv f hf
    rw [not_truthy_of_specMissingOrEmpty _ hm] at ht
    exact absurd ht (by simp)
  · intro hv
    simp [initiatePayment, hv]

/-! ## C2, C3: the processor's answer to an initiation -/

/-- C2: for a valid request whose payload is sent as `form`, when the processor's
parsed response has `status` equal to `'SUCCESS'` the handler answers 200 with
exactly that response as body, after exactly one outbound call. -/
theorem initiatePayment_accepted (cfg : Config) (world : World) (body : Obj)
    (form : List (String × String)) (data : JSVal)
    (hv : validatePaymentRequest body = true)
    (hf : formPairs (paymentData cfg body) = some form)
    (hw : world ⟨"POST", sslczURL cfg, form⟩ = FetchOutcome.parsed data)
    (hs : data.optProp "status" = JSVal.str "SUCCESS") :
    (initiatePayment cfg world body).response = Response.json 200 data
      ∧ (initiatePayment cfg world body).calls = [⟨"POST", sslczURL cfg, form⟩] := by
  have hb : (data.optProp "status").strictEqStr "SUCCESS" = true :=
    (strictEqStr_eq_true_iff _ _).mpr hs
  simp [initiatePayment, hv, hf, hw, hb]

/-- C2, at the spec's scenario: the acceptance is relayed unchanged. -/
theorem initiatePayment_accepted_witness :
    (initiatePayment sampleConfig (answering acceptance) sampleBody).response
        = Response.json 200 acceptance
      ∧ (initiatePayment sampleConfig (answering acceptance) sampleBody).calls
        = [⟨"POST", sslczURL sampleConfig, sampleForm⟩] :=
  initiatePayment_accepted sampleConfig (answering acceptance) sampleBody sampleForm acceptance
    (by decide) (by rfl) (by rfl) (by rfl)

/-- C3: for a valid request whose payload is sent as `form`, when the processor's
parsed response does not have `status` equal to `'SUCCESS'` the handler answers
400 with `status` `'FAILED'`, `data` the processor's response, and `message`
the processor's `message` when that is truthy (in particular a non-empty
string) and `'Payment initialization failed'` otherwise (in particular when it
is absent, `null` or the empty string). -/
theorem initiatePayment_rejected (cfg : Config) (world : World) (body : Obj)
    (form : List (String × String)) (data : JSVal)
    (hv : validatePaymentRequest body = true)
    (hf : formPairs (paymentData cfg body) = some form)
    (hw : world ⟨"POST", sslczURL cfg, form⟩ = FetchOutcome.parsed data)
    (hs : data.optProp "status" ≠ JSVal.str "SUCCESS") :
    ∃ message : JSVal,
      (initiatePayment cfg world body).response
          = Response.json 400 (JSVal.obj [("status", JSVal.str "FAILED"), ("message", message),
              ("data", data)])
        ∧ ((data.optProp "message").truthy = true → message = data.optProp "message")
        ∧ ((data.optProp "message").truthy = false →
            message = JSVal.str "Payment initialization failed")
        ∧ (∀ s : String, s ≠ "" → data.optProp "message" = JSVal.str s → message = JSVal.str s)
        ∧ (specMissingOrEmpty (data.optProp "message") = true →
            message = JSVal.str "Payment initialization failed")
        ∧ (initiatePayment cfg world body).calls = [⟨"POST", sslczURL cfg, form⟩] := by
  have hb : (data.optProp "status").strictEqStr "SUCCESS" = false :=
    strictEqStr_eq_false_of_ne _ _ hs
  refine ⟨(data.optProp "message").or (JSVal.str "Payment initialization failed"), ?_, ?_, ?_,
    ?_, ?_, ?_⟩
  · simp [initiatePayment, hv, hf, hw, hb]
  · intro ht
    simp [JSVal.or, ht]
  · intro ht
    simp [JSVal.or, ht]
  · intro s hne hm
    simp [JSVal.or, hm, truthy_of_not_missingOrEmpty_str s hne]
  · intro hm
    simp [JSVal.or, not_truthy_of_specMissingOrEmpty _ hm]
  · simp [initiatePayment, hv, hf, hw, hb]

/-- C3, at a rejection that carries a reason. -/
theorem initiatePayment_rejected_witness :
    ∃ message : JSVal,
      (initiatePayment sampleConfig (answering rejection) sampleBody).response
          = Response.json 400 (JSVal.obj [("status", JSVal.str "FAILED"), ("message", message),
              ("data", rejection)])
        ∧ ((rejection.optProp "message").truthy = true → message = rejection.optProp "message")
        ∧ ((rejection.optProp "message").truthy = false →
            message = JSVal.str "Payment initialization failed")
        ∧ (∀ s : String, s ≠ "" → rejection.optProp "message" = JSVal.str s →
            message = JSVal.str s)
        ∧ (specMissingOrEmpty (rejection.optProp "message") = true →
            message = JSVal.str "Payment initialization failed")
        ∧ (initiatePayment sampleConfig (answering rejection) sampleBody).calls
            = [⟨"POST", sslczURL sampleConfig, sampleForm⟩] :=
  initiatePayment_rejected sampleConfig (answering rejection) sampleBody sampleForm rejection
    (by decide) (by rfl) (by rfl) (by simp [rejection, JSVal.optProp, Obj.get])

/-! ## C10: the payload sent to the processor -/

/-- C10: for a valid request, every property of the body whose key is not one
of the five overridden keys is a property of `paymentData` with the same value;
the five keys hold the configured `store_id` and `store_passwd` and the
constants `'NO'`, `'internetbank'`, `'4.00'` whatever the body supplied; and
the call that is issued posts the form of `paymentData`, in which each name
carries the string conversion of the property's value. -/
theorem paymentData_merge (cfg : Config) (world : World) (body : Obj)
    (hv : validatePaymentRequest body = true) :
    (∀ k, k ∉ overriddenKeys → (paymentData cfg body).get k = body.get k)
      ∧ (∀ k, body.has k = true → (paymentData cfg body).has k = true)
      ∧ (∀ k ∈ overriddenKeys, (paymentData cfg body).has k = true)
      ∧ (paymentData cfg body).get "store_id" = envVal cfg.SSLCOMMERZ_STORE_ID
      ∧ (paymentData cfg body).get "store_passwd" = envVal cfg.SSLCOMMERZ_STORE_PASSWORD
      ∧ (paymentData cfg body).get "shipping_method" = JSVal.str "NO"
      ∧ (paymentData cfg body).get "multi_card_name" = JSVal.str "internetbank"
      ∧ (paymentData cfg body).get "version" = JSVal.str "4.00"
      ∧ (∀ form, formPairs (paymentData cfg body) = some form →
          (initiatePayment cfg world body).calls = [⟨"POST", sslczURL cfg, form⟩]
            ∧ ∀ k, formGet form k
                = if (paymentData cfg body).has k = true then ((paymentData cfg body).get k).toStr
                  else none) := by
  refine ⟨?_, ?_, ?_, ?_, ?_, ?_, ?_, ?_, ?_⟩
  · intro k hk
    simp only [overriddenKeys, List.mem_cons, List.not_mem_nil, or_false, not_or] at hk
    obtain ⟨h1, h2, h3, h4, h5⟩ := hk
    simp only [paymentData]
    rw [Obj.get_set_other _ _ _ _ (Ne.symm h5), Obj.get_set_other _ _ _ _ (Ne.symm h4),
      Obj.get_set_other _ _ _ _ (Ne.symm h3), Obj.get_set_other _ _ _ _ (Ne.symm h2),
      Obj.get_set_other _ _ _ _ (Ne.symm h1)]
  · intro k hk
    simp only [paymentData]
    exact Obj.has_set_of_has _ _ _ _ (Obj.has_set_of_has _ _ _ _ (Obj.has_set_of_has _ _ _ _
      (Obj.has_set_of_has _ _ _ _ (Obj.has_set_of_has _ _ _ _ hk))))
  · intro k hk
    simp only [overriddenKeys, List.mem_cons, List.not_mem_nil, or_false] at hk
    simp only [paymentData]
    rcases hk with rfl | rfl | rfl | rfl | rfl
    · exact Obj.has_set_of_has _ _ _ _ (Obj.has_set_of_has _ _ _ _ (Obj.has_set_of_has _ _ _ _
        (Obj.has_set_of_has _ _ _ _ (Obj.has_set_same _ _ _))))
    · exact Obj.has_set_of_has _ _ _ _ (Obj.has_set_of_has _ _ _ _ (Obj.has_set_of_has _ _ _ _
        (Obj.has_set_same _ _ _)))
    · exact Obj.has_set_of_has _ _ _ _ (Obj.has_set_of_has _ _ _ _ (Obj.has_set_same _ _ _))
    · exact Obj.has_set_of_has _ _ _ _ (Obj.has_set_same _ _ _)
    · exact Obj.has_set_same _ _ _
  · simp only [paymentData, sslcommerz]
    rw [Obj.get_set_other _ _ _ _ (by decide), Obj.get_set_other _ _ _ _ (by decide),
      Obj.get_set_other _ _ _ _ (by decide), Obj.get_set_other _ _ _ _ (by decide),
      Obj.get_set_same]
  · simp only [paymentData, sslcommerz]
    rw [Obj.get_set_other _ _ _ _ (by decide), Obj.get_set_other _ _ _ _ (by decide),
      Obj.get_set_other _ _ _ _ (by decide), Obj.get_set_same]
  · simp only [paymentData]
    rw [Obj.get_set_other _ _ _ _ (by decide), Obj.get_set_other _ _ _ _ (by decide),
      Obj.get_set_same]
  · simp only [paymentData]
    rw [Obj.get_set_other _ _ _ _ (by decide), Obj.get_set_same]
  · simp only [paymentData]
    rw [Obj.get_set_same]
  · intro form hf
    refine ⟨?_, formGet_formPairs _ _ hf⟩
    simp only [initiatePayment, hv, hf]
    cases world ⟨"POST", sslczURL cfg, form⟩ with
    | rejected m => simp
    | unparseable m => simp
    | parsed data => by_cases hb : (data.optProp "status").strictEqStr "SUCCESS" = true <;> simp [hb]

/-- C10, at the sample request: the credential of the configuration is the one sent. -/
theorem paymentData_merge_witness :
    (paymentData sampleConfig sampleBody).get "store_id" = JSVal.str "store1" :=
  (paymentData_merge sampleConfig unreachable sampleBody (by decide)).2.2.2.1

/-! ## Callbacks: lemmas -/

theorem success_ne_failed (f t u : String) :
    f ++ "/payment-success?tran_id=" ++ t
      ≠ f ++ "/payment-failed?error_message=Payment validation failed&tran_id=" ++ u := by
  intro h
  have hd := congrArg String.data h
  simp only [String.data_append, List.append_assoc, List.append_cancel_left_eq] at hd
  have h9 := congrArg (fun l => l.get? 9) hd
  simp at h9

theorem success_ne_catch (f t : String) :
    f ++ "/payment-success?tran_id=" ++ t
      ≠ f ++ "/payment-failed?error_message=Internal server error" := by
  intro h
  have hd := congrArg String.data h
  simp only [String.data_append, List.append_assoc, List.append_cancel_left_eq] at hd
  have h9 := congrArg (fun l => l.get? 9) hd
  simp at h9

theorem getProp?_eq_none_iff (data : JSVal) (k : String) :
    data.getProp? k = none ↔ data = JSVal.null ∨ data = JSVal.undefined := by
  cases data <;> simp [JSVal.getProp?]

theorem isConfirmed_eq_true_iff (status : JSVal) :
    isConfirmed status = true ↔ status = JSVal.str "VALID" ∨ status = JSVal.str "VALIDATED" := by
  simp [isConfirmed, strictEqStr_eq_true_iff]

/-! ## C4: resolution of a success-channel callback -/

/-- C4 (as stated, refuted): a parsed validation response `null` is answered
with the redirect `/payment-failed?error_message=Internal server error`, which
carries no `tran_id`; and for a callback whose `tran_id` cannot be converted to
a string, a validation response of status `'VALID'` is answered with that same
failure redirect, not with a redirect to `/payment-success`. -/
theorem null_response_and_opaque_tran_id_redirect :
    (paymentSuccess sampleConfig (answering JSVal.null) callbackT1).response
        = Response.redirect "https://shop.example/payment-failed?error_message=Internal server error"
      ∧ (JSVal.obj [("status", JSVal.str "VALID")]).getProp? "status" = some (JSVal.str "VALID")
      ∧ (paymentSuccess sampleConfig (answering (JSVal.obj [("status", JSVal.str "VALID")]))
            callbackOpaque).response
        = Response.redirect "https://shop.example/payment-failed?error_message=Internal server error"
      ∧ ∀ t, (paymentSuccess sampleConfig (answering (JSVal.obj [("status", JSVal.str "VALID")]))
            callbackOpaque).response
        ≠ Response.redirect (envStr sampleConfig.FRONTEND_URL ++ "/payment-success?tran_id=" ++ t) := by
  refine ⟨rfl, rfl, rfl, ?_⟩
  intro t h
  have h' : Response.redirect (envStr sampleConfig.FRONTEND_URL
        ++ "/payment-failed?error_message=Internal server error")
      = Response.redirect (envStr sampleConfig.FRONTEND_URL ++ "/payment-success?tran_id=" ++ t) :=
    h
  simp only [Response.redirect.injEq] at h'
  exact success_ne_catch _ _ h'.symm

/-- C4 (amended): for a success-channel callback whose `val_id` converts to the
string `v`, and a parsed validation response whose `status` reads as `status`
(every parsed value but `null` has one, `undefined` when the field is absent):
when the callback's `tran_id` converts to the string `t`, the handler
redirects to `<frontend>/payment-success?tran_id=t` if `status` is `'VALID'` or
`'VALIDATED'`, and to
`<frontend>/payment-failed?error_message=Payment validation failed&tran_id=t`
for every other status; when `tran_id` cannot be converted to a string it
redirects to `<frontend>/payment-failed?error_message=Internal server error`
whatever the status. -/
theorem paymentSuccess_resolution (cfg : Config) (world : World) (body : Obj)
    (v : String) (data status : JSVal)
    (hval : (body.get "val_id").toStr = some v)
    (hw : world (validationCall cfg v) = FetchOutcome.parsed data)
    (hst : data.getProp? "status" = some status) :
    (∀ t, (body.get "tran_id").toStr = some t →
        ((status = JSVal.str "VALID" ∨ status = JSVal.str "VALIDATED") →
          (paymentSuccess cfg world body).response
            = Response.redirect (envStr cfg.FRONTEND_URL ++ "/payment-success?tran_id=" ++ t))
        ∧ (¬ (status = JSVal.str "VALID" ∨ status = JSVal.str "VALIDATED") →
          (paymentSuccess cfg world body).response
            = Response.redirect (envStr cfg.FRONTEND_URL
                ++ "/payment-failed?error_message=Payment validation failed&tran_id=" ++ t)))
      ∧ ((body.get "tran_id").toStr = none →
          (paymentSuccess cfg world body).response
            = Response.redirect (envStr cfg.FRONTEND_URL
                ++ "/payment-failed?error_message=Internal server error")) := by
  constructor
  · intro t htran
    constructor
    · intro hc
      have hb := (isConfirmed_eq_true_iff status).mpr hc
      simp [paymentSuccess, hval, htran, hw, hst, hb]
    · intro hc
      have hb : isConfirmed status = false := by
        cases h : isConfirmed status
        · rfl
        · exact absurd ((isConfirmed_eq_true_iff status).mp h) hc
      simp [paymentSuccess, hval, htran, hw, hst, hb]
  · intro htran
    cases hb : isConfirmed status <;>
      simp [paymentSuccess, hval, htran, hw, hst, hb, successCatch]

/-- C4, at the spec's scenario: `T1` validated as `VALID`. -/
theorem paymentSuccess_resolution_witness :
    (paymentSuccess sampleConfig (answering (JSVal.obj [("status", JSVal.str "VALID")]))
        callbackT1).response
      = Response.redirect "https://shop.example/payment-success?tran_id=T1" :=
  ((paymentSuccess_resolution sampleConfig (answering (JSVal.obj [("status", JSVal.str "VALID")]))
    callbackT1 "V1" (JSVal.obj [("status", JSVal.str "VALID")]) (JSVal.str "VALID")
    (by rfl) (by rfl) (by rfl)).1 "T1" (by rfl)).1 (Or.inl rfl)

/-! ## C5: the redirect after a failed validation call -/

/-- C5 (the code at the failing input): when the validation call fails in
transport, the callbacks for `T1` and for `T2` are both redirected to
`https://shop.example/payment-failed?error_message=Internal server error`,
a location without any `tran_id`. -/
theorem paymentSuccess_transport_failure_location :
    (paymentSuccess sampleConfig unreachable callbackT1).response
        = Response.redirect "https://shop.example/payment-failed?error_message=Internal server error"
      ∧ (paymentSuccess sampleConfig unreachable callbackT2).response
        = Response.redirect "https://shop.example/payment-failed?error_message=Internal server error"
      ∧ (paymentSuccess sampleConfig (answering JSVal.null) callbackT1).response
        = Response.redirect "https://shop.example/payment-failed?error_message=Internal server error" := by
  refine ⟨?_, ?_, ?_⟩ <;> rfl

/-! ## C6: the acknowledgment of a notification -/

/-- C6 (as stated, refuted): when the validation call fails in transport the
notification handler answers 500, not 400. -/
theorem paymentNotification_transport_failure :
    (paymentNotification sampleConfig unreachable callbackT1).response
        = Response.json 500 (JSVal.obj [("status", JSVal.str "FAILED"),
            ("message", JSVal.str "Internal server error")])
      ∧ (paymentNotification sampleConfig unreachable callbackT1).response.code ≠ 400 := by
  refine ⟨rfl, ?_⟩
  decide

/-- C6 (amended): the notification handler never redirects; it answers 200
`{status:'SUCCESS'}` when the parsed validation response has status `'VALID'`
or `'VALIDATED'`, 400 `{status:'FAILED', message:'Payment validation failed'}`
when the parsed response has any other status, and 500
`{status:'FAILED', message:'Internal server error'}` when the call fails in
transport or the response is unparseable or `null`. -/
theorem paymentNotification_resolution (cfg : Config) (world : World) (body : Obj) :
    (paymentNotification cfg world body).response.isRedirect = false
      ∧ ((body.get "val_id").toStr = none →
          (paymentNotification cfg world body).response
              = Response.json 500 (JSVal.obj [("status", JSVal.str "FAILED"),
                  ("message", JSVal.str "Internal server error")])
            ∧ (paymentNotification cfg world body).calls = [])
      ∧ ∀ v, (body.get "val_id").toStr = some v →
        (paymentNotification cfg world body).calls = [validationCall cfg v]
        ∧ (∀ data status, world (validationCall cfg v) = FetchOutcome.parsed data →
            data.getProp? "status" = some status →
            ((status = JSVal.str "VALID" ∨ status = JSVal.str "VALIDATED") →
              (paymentNotification cfg world body).response
                = Response.json 200 (JSVal.obj [("status", JSVal.str "SUCCESS")]))
            ∧ (¬ (status = JSVal.str "VALID" ∨ status = JSVal.str "VALIDATED") →
              (paymentNotification cfg world body).response
                = Response.json 400 (JSVal.obj [("status", JSVal.str "FAILED"),
                    ("message", JSVal.str "Payment validation failed")])))
        ∧ ((∃ m, world (validationCall cfg v) = FetchOutcome.rejected m)
            ∨ (∃ m, world (validationCall cfg v) = FetchOutcome.unparseable m)
            ∨ world (validationCall cfg v) = FetchOutcome.parsed JSVal.null →
            (paymentNotification cfg world body).response
              = Response.json 500 (JSVal.obj [("status", JSVal.str "FAILED"),
                  ("message", JSVal.str "Internal server error")])) := by
  constructor
  · simp only [paymentNotification]
    split
    · rfl
    · split
      · rfl
      · rfl
      · split
        · rfl
        · split <;> rfl
  refine ⟨?_, ?_⟩
  · intro hval
    simp [paymentNotification, hval, notificationCatch]
  · intro v hval
    refine ⟨?_, ?_, ?_⟩
    · simp only [paymentNotification, hval]
      split
      · rfl
      · rfl
      · split
        · rfl
        · split <;> rfl
    · intro data status hw hst
      constructor
      · intro hc
        have hb := (isConfirmed_eq_true_iff status).mpr hc
        simp [paymentNotification, hval, hw, hst, hb]
      · intro hc
        have hb : isConfirmed status = false := by
          cases h : isConfirmed status
          · rfl
          · exact absurd ((isConfirmed_eq_true_iff status).mp h) hc
        simp [paymentNotification, hval, hw, hst, hb]
    · rintro (⟨m, hw⟩ | ⟨m, hw⟩ | hw)
      · simp [paymentNotification, hval, hw, notificationCatch]
      · simp [paymentNotification, hval, hw, notificationCatch]
      · simp [paymentNotification, hval, hw, notificationCatch, JSVal.getProp?]

/-! ## C7: one validation procedure for both channels -/

/-- C7 (as stated, refuted): for the callback `callbackOpaque` and a
notification with the same `val_id`, under a validation response of status
`'VALID'`, the notification handler answers 200 `{status:'SUCCESS'}` while the
success handler redirects to
`/payment-failed?error_message=Internal server error`, not to
`/payment-success`. -/
theorem opaque_tran_id_splits_channels :
    callbackOpaque.get "val_id" = callbackT1.get "val_id"
      ∧ (paymentNotification sampleConfig (answering (JSVal.obj [("status", JSVal.str "VALID")]))
            callbackT1).response
        = Response.json 200 (JSVal.obj [("status", JSVal.str "SUCCESS")])
      ∧ (paymentSuccess sampleConfig (answering (JSVal.obj [("status", JSVal.str "VALID")]))
            callbackOpaque).response
        = Response.redirect "https://shop.example/payment-failed?error_message=Internal server error"
      ∧ ∀ t, (paymentSuccess sampleConfig (answering (JSVal.obj [("status", JSVal.str "VALID")]))
            callbackOpaque).response
        ≠ Response.redirect (envStr sampleConfig.FRONTEND_URL ++ "/payment-success?tran_id=" ++ t) := by
  refine ⟨rfl, rfl, rfl, ?_⟩
  intro t h
  have h' : Response.redirect (envStr sampleConfig.FRONTEND_URL
        ++ "/payment-failed?error_message=Internal server error")
      = Response.redirect (envStr sampleConfig.FRONTEND_URL ++ "/payment-success?tran_id=" ++ t) :=
    h
  simp only [Response.redirect.injEq] at h'
  exact success_ne_catch _ _ h'.symm

/-- C7 (amended): for a success-channel callback and a notification carrying
the same `val_id`, the two handlers perform the same outbound calls, each the
validation query for that `val_id` at the endpoint chosen by the live flag with
the configured credentials; a redirect of the success handler to
`<frontend>/payment-success?tran_id=...` occurs only if the notification
handler answers 200 `{status:'SUCCESS'}`; when the callback's `tran_id`
converts to the string `t`, the success handler redirects to
`<frontend>/payment-success?tran_id=t` exactly when the notification handler
answers 200 `{status:'SUCCESS'}`; and when `tran_id` cannot be converted to a
string the success handler redirects to
`<frontend>/payment-failed?error_message=Internal server error`. -/
theorem validation_shared (cfg : Config) (world : World) (b₁ b₂ : Obj)
    (hv : b₁.get "val_id" = b₂.get "val_id") :
    (paymentSuccess cfg world b₁).calls = (paymentNotification cfg world b₂).calls
      ∧ (∀ c ∈ (paymentSuccess cfg world b₁).calls,
          ∃ v, (b₁.get "val_id").toStr = some v ∧ c = validationCall cfg v)
      ∧ (∀ t, (paymentSuccess cfg world b₁).response
            = Response.redirect (envStr cfg.FRONTEND_URL ++ "/payment-success?tran_id=" ++ t) →
          (paymentNotification cfg world b₂).response
            = Response.json 200 (JSVal.obj [("status", JSVal.str "SUCCESS")]))
      ∧ (∀ t, (b₁.get "tran_id").toStr = some t →
          ((paymentSuccess cfg world b₁).response
              = Response.redirect (envStr cfg.FRONTEND_URL ++ "/payment-success?tran_id=" ++ t)
            ↔ (paymentNotification cfg world b₂).response
              = Response.json 200 (JSVal.obj [("status", JSVal.str "SUCCESS")])))
      ∧ ((b₁.get "tran_id").toStr = none →
          (paymentSuccess cfg world b₁).response
            = Response.redirect (envStr cfg.FRONTEND_URL
                ++ "/payment-failed?error_message=Internal server error")) := by
  refine ⟨?_, ?_, ?_, ?_, ?_⟩
  · cases hval : (b₁.get "val_id").toStr with
    | none => simp [paymentSuccess, paymentNotification, ← hv, hval]
    | some v =>
      cases hw : world (validationCall cfg v) with
      | rejected m => simp [paymentSuccess, paymentNotification, ← hv, hval, hw]
      | unparseable m => simp [paymentSuccess, paymentNotification, ← hv, hval, hw]
      | parsed data =>
        cases hst : data.getProp? "status" with
        | none => simp [paymentSuccess, paymentNotification, ← hv, hval, hw, hst]
        | some status =>
          cases htr : (b₁.get "tran_id").toStr <;> cases hb : isConfirmed status <;>
            simp [paymentSuccess, paymentNotification, ← hv, hval, hw, hst, hb, htr]
  · cases hval : (b₁.get "val_id").toStr with
    | none => simp [paymentSuccess, hval]
    | some v =>
      cases hw : world (validationCall cfg v) with
      | rejected m => simp [paymentSuccess, hval, hw]
      | unparseable m => simp [paymentSuccess, hval, hw]
      | parsed data =>
        cases hst : data.getProp? "status" with
        | none => simp [paymentSuccess, hval, hw, hst]
        | some status =>
          cases htr : (b₁.get "tran_id").toStr <;> cases hb : isConfirmed status <;>
            simp [paymentSuccess, hval, hw, hst, hb, htr]
  · intro t
    have hne₁ := Ne.symm (success_ne_catch (envStr cfg.FRONTEND_URL) t)
    cases hval : (b₁.get "val_id").toStr with
    | none => simp [paymentSuccess, hval, successCatch, hne₁]
    | some v =>
      cases hw : world (validationCall cfg v) with
      | rejected m => simp [paymentSuccess, hval, hw, successCatch, hne₁]
      | unparseable m => simp [paymentSuccess, hval, hw, successCatch, hne₁]
      | parsed data =>
        cases hst : data.getProp? "status" with
        | none => simp [paymentSuccess, hval, hw, hst, successCatch, hne₁]
        | some status =>
          cases htr : (b₁.get "tran_id").toStr with
          | none =>
            cases hb : isConfirmed status <;>
              simp [paymentSuccess, hval, hw, hst, hb, htr, successCatch, hne₁]
          | some u =>
            cases hb : isConfirmed status with
            | false =>
              have hne₂ := Ne.symm (success_ne_failed (envStr cfg.FRONTEND_URL) t u)
              simp [paymentSuccess, hval, hw, hst, hb, htr, hne₂]
            | true =>
              intro _
              simp [paymentNotification, ← hv, hval, hw, hst, hb]
  · intro t ht
    have hne₃ := Ne.symm (success_ne_catch (envStr cfg.FRONTEND_URL) t)
    have hne₄ := Ne.symm (success_ne_failed (envStr cfg.FRONTEND_URL) t t)
    cases hval : (b₁.get "val_id").toStr with
    | none =>
      simp [paymentSuccess, paymentNotification, ← hv, ht, hval, successCatch, notificationCatch,
        hne₃]
    | some v =>
      cases hw : world (validationCall cfg v) with
      | rejected m =>
        simp [paymentSuccess, paymentNotification, ← hv, ht, hval, hw, successCatch,
          notificationCatch, hne₃]
      | unparseable m =>
        simp [paymentSuccess, paymentNotification, ← hv, ht, hval, hw, successCatch,
          notificationCatch, hne₃]
      | parsed data =>
        cases hst : data.getProp? "status" with
        | none =>
          simp [paymentSuccess, paymentNotification, ← hv, ht, hval, hw, hst, successCatch,
            notificationCatch, hne₃]
        | some status =>
          cases hb : isConfirmed status with
          | true => simp [paymentSuccess, paymentNotification, ← hv, ht, hval, hw, hst, hb]
          | false =>
            simp [paymentSuccess, paymentNotification, ← hv, ht, hval, hw, hst, hb, hne₄]
  · intro htr
    cases hval : (b₁.get "val_id").toStr with
    | none => simp [paymentSuccess, hval, successCatch]
    | some v =>
      cases hw : world (validationCall cfg v) with
      | rejected m => simp [paymentSuccess, hval, hw, successCatch]
      | unparseable m => simp [paymentSuccess, hval, hw, successCatch]
      | parsed data =>
        cases hst : data.getProp? "status" with
        | none => simp [paymentSuccess, hval, hw, hst, successCatch]
        | some status =>
          cases hb : isConfirmed status <;>
            simp [paymentSuccess, hval, hw, hst, hb, htr, successCatch]

/-- C7, at a callback and a notification for `V1`: the same outbound calls. -/
theorem validation_shared_witness :
    (paymentSuccess sampleConfig (answering (JSVal.obj [("status", JSVal.str "VALIDATED")]))
        callbackT1).calls
      = (paymentNotification sampleConfig
          (answering (JSVal.obj [("status", JSVal.str "VALIDATED")])) callbackT1Forged).calls :=
  (validation_shared sampleConfig (answering (JSVal.obj [("status", JSVal.str "VALIDATED")]))
    callbackT1 callbackT1Forged (by rfl)).1

/-! ## C8: the callback's own fields are not trusted -/

/-- C8: two success-channel callbacks that agree on `tran_id` and `val_id`
yield the same response and the same outbound calls under the same world,
whatever their other fields; and a redirect to
`<frontend>/payment-success?tran_id=...` is produced only when exactly one
outbound call was made, it is the validation query for the callback's
`val_id`, and its parsed response has status `'VALID'` or `'VALIDATED'`. -/
theorem paymentSuccess_untrusting (cfg : Config) (world : World) (b₁ b₂ : Obj)
    (ht : b₁.get "tran_id" = b₂.get "tran_id")
    (hv : b₁.get "val_id" = b₂.get "val_id") :
    paymentSuccess cfg world b₁ = paymentSuccess cfg world b₂
      ∧ ∀ t, (paymentSuccess cfg world b₁).response
            = Response.redirect (envStr cfg.FRONTEND_URL ++ "/payment-success?tran_id=" ++ t) →
          ∃ v data status, (b₁.get "val_id").toStr = some v
            ∧ (paymentSuccess cfg world b₁).calls = [validationCall cfg v]
            ∧ world (validationCall cfg v) = FetchOutcome.parsed data
            ∧ data.getProp? "status" = some status
            ∧ (status = JSVal.str "VALID" ∨ status = JSVal.str "VALIDATED") := by
  constructor
  · simp only [paymentSuccess, ht, hv]
  · intro t
    have hne₁ := Ne.symm (success_ne_catch (envStr cfg.FRONTEND_URL) t)
    cases hval : (b₁.get "val_id").toStr with
    | none => simp [paymentSuccess, hval, successCatch, hne₁]
    | some v =>
      cases hw : world (validationCall cfg v) with
      | rejected m => simp [paymentSuccess, hval, hw, successCatch, hne₁]
      | unparseable m => simp [paymentSuccess, hval, hw, successCatch, hne₁]
      | parsed data =>
        cases hst : data.getProp? "status" with
        | none => simp [paymentSuccess, hval, hw, hst, successCatch, hne₁]
        | some status =>
          cases htr : (b₁.get "tran_id").toStr with
          | none =>
            cases hb : isConfirmed status <;>
              simp [paymentSuccess, hval, hw, hst, hb, htr, successCatch, hne₁]
          | some u =>
            cases hb : isConfirmed status with
            | false =>
              have hne₂ := Ne.symm (success_ne_failed (envStr cfg.FRONTEND_URL) t u)
              simp [paymentSuccess, hval, hw, hst, hb, htr, hne₂]
            | true =>
              intro _
              refine ⟨v, data, status, rfl, ?_, hw, hst, (isConfirmed_eq_true_iff status).mp hb⟩
              simp [paymentSuccess, hval, hw, hst, hb, htr]

/-- C8, at two callbacks for `T1` that disagree on every informational field. -/
theorem paymentSuccess_untrusting_witness :
    paymentSuccess sampleConfig (answering (JSVal.obj [("status", JSVal.str "FAILED")]))
        callbackT1
      = paymentSuccess sampleConfig (answering (JSVal.obj [("status", JSVal.str "FAILED")]))
        callbackT1Forged :=
  (paymentSuccess_untrusting sampleConfig
    (answering (JSVal.obj [("status", JSVal.str "FAILED")])) callbackT1 callbackT1Forged
    (by rfl) (by rfl)).1

end PaymentBackend
